import Mathlib

/-!
Verification of the wproxy repository (src/main.py): a small HTTP forwarding
proxy that rewrites GitHub blob/raw links to raw.githubusercontent.com,
relays requests, caches small responses and streams large ones.

The development is a shallow embedding of the pure logic of main.py:
strings are Lean strings (byte-level fidelity for ASCII, which is all the
claims exercise), the response cache is explicit state threaded through the
orchestrator, and the upstream HTTP client is an oracle passed as a
function argument. Library functions used by the source (urllib unquote and
urlparse, the httpx header multidict, cachetools TTLCache, Starlette
routing) are embedded following their documented behaviour on the inputs
the claims exercise.
-/

set_option autoImplicit false
set_option synthInstance.maxSize 512

namespace WProxy

/-- Python default str.strip whitespace set, restricted to ASCII
(the source never feeds non-ASCII whitespace through this path). -/
def isPySpace (c : Char) : Bool :=
  c = ' ' || c = '\t' || c = '\n' || c = '\r' || c = '\x0b' || c = '\x0c'

/-- Model of Python str.strip with no arguments: drop leading and trailing
whitespace. -/
def pyStrip (s : String) : String :=
  ⟨((s.data.dropWhile isPySpace).reverse.dropWhile isPySpace).reverse⟩

def isHexDigitCh (c : Char) : Bool :=
  c.isDigit || ('a' ≤ c && c ≤ 'f') || ('A' ≤ c && c ≤ 'F')

def hexVal (c : Char) : Nat :=
  if c.isDigit then c.toNat - 48
  else if 'a' ≤ c && c ≤ 'f' then c.toNat - 87
  else c.toNat - 55

/-- Model of urllib.parse.unquote on the character level: a percent sign
followed by two hex digits decodes to the byte value, an invalid escape is
kept literally and scanning resumes after the percent sign. Faithful to
CPython for ASCII escapes (multi-byte UTF-8 escape sequences, which no
claim exercises, would be decoded jointly by CPython). -/
def unquoteChars : List Char → List Char
  | '%' :: a :: b :: rest =>
    if isHexDigitCh a && isHexDigitCh b then
      Char.ofNat (16 * hexVal a + hexVal b) :: unquoteChars rest
    else
      '%' :: unquoteChars (a :: b :: rest)
  | c :: rest => c :: unquoteChars rest
  | [] => []

def unquote (s : String) : String := ⟨unquoteChars s.data⟩

/-- Model of str.startswith on the character list (the UTF-8 position
arithmetic of the builtin String.startsWith is opaque to kernel
reduction). -/
def strStarts (s pre : String) : Bool := pre.data.isPrefixOf s.data

/-- Drop the first n characters of a string, as Python slicing does. -/
def strDrop (s : String) (n : Nat) : String := ⟨s.data.drop n⟩

/-- Embedding of normalize_url_param from src/main.py: strip, percent-decode,
and drop exactly one leading slash in front of an http(s) URL. -/
def normalize_url_param (raw : String) : String :=
  let u := unquote (pyStrip raw)
  if strStarts u "/http://" || strStarts u "/https://" then strDrop u 1 else u

/-- Split a character list at the first occurrence of sep; none when sep does
not occur. -/
def splitAtChar (sep : Char) : List Char → Option (List Char × List Char)
  | [] => none
  | c :: cs =>
    if c = sep then some ([], cs)
    else
      match splitAtChar sep cs with
      | some (pre, post) => some (c :: pre, post)
      | none => none

/-- Characters CPython urllib.parse allows inside a URL scheme. -/
def isSchemeChar (c : Char) : Bool :=
  c.isAlpha || c.isDigit || c = '+' || c = '-' || c = '.'

/-- Model of the scheme component of urllib.parse.urlparse: the text before
the first colon, provided it is nonempty, starts with an ASCII letter and
consists of scheme characters; lowercased. Otherwise the scheme is empty. -/
def urlScheme (url : String) : String :=
  match splitAtChar ':' url.data with
  | some (pre, _) =>
    match pre with
    | [] => ""
    | c :: _ => if c.isAlpha && pre.all isSchemeChar then ⟨pre.map Char.toLower⟩ else ""
  | none => ""

/-- Embedding of allowed_scheme from src/main.py. -/
def allowed_scheme (url : String) : Bool :=
  urlScheme url == "http" || urlScheme url == "https"

/-- Match a literal pattern case-insensitively (ASCII case folding, the
fragment of re.IGNORECASE the source patterns exercise) against a prefix of
the input, returning the remainder on success. -/
def stripCI : List Char → List Char → Option (List Char)
  | [], s => some s
  | _ :: _, [] => none
  | p :: ps, c :: cs => if c.toLower = p.toLower then stripCI ps cs else none

/-- Semantics of the regex fragment (.+)$ with no DOTALL and no MULTILINE:
one or more non-newline characters, followed by the end of the string or by
a single newline that ends the string. -/
def dotPlusDollar (s : List Char) : Option (List Char) :=
  if !s.isEmpty && s.all (fun c => c != '\n') then some s
  else
    let t := s.dropLast
    if s.getLast? == some '\n' && !t.isEmpty && t.all (fun c => c != '\n') then some t
    else none

/-- Consume the scheme prefix of the two source regexes: https? followed by
the literal colon-slash-slash, case-insensitively. -/
def ghSchemeStrip (s : List Char) : Option (List Char) :=
  match stripCI "https://".data s with
  | some r => some r
  | none => stripCI "http://".data s

/-- Consume the host part of the two source regexes: an optional www. then
github.com and a slash, case-insensitively. -/
def ghHostStrip (s : List Char) : Option (List Char) :=
  match stripCI "www.github.com/".data s with
  | some r => some r
  | none => stripCI "github.com/".data s

/-- Consume scheme and host together. -/
def ghPrefixStrip (s : List Char) : Option (List Char) :=
  match ghSchemeStrip s with
  | none => none
  | some r => ghHostStrip r

/-- Shared shape of the two regexes gh_blob_regex and gh_tree_regex of
src/main.py, which differ only in the literal segment (blob/ versus raw/):
scheme, optional www., github.com, an owner segment, a repo segment, the
keyword segment, then the rest captured by (.+)$. Returns the three capture
groups. -/
def ghMatchCore (kw : String) (l : List Char) : Option (List Char × List Char × List Char) :=
  match ghPrefixStrip l with
    | none => none
    | some r1 =>
      match splitAtChar '/' r1 with
      | none => none
      | some (owner, r2) =>
        if owner.isEmpty then none
        else
          match splitAtChar '/' r2 with
          | none => none
          | some (repo, r3) =>
            if repo.isEmpty then none
            else
              match stripCI kw.data r3 with
              | none => none
              | some r4 =>
                match dotPlusDollar r4 with
                | none => none
                | some rest => some (owner, repo, rest)

/-- Match one of the two source regexes against a URL. -/
def ghMatch (kw : String) (url : String) : Option (List Char × List Char × List Char) :=
  ghMatchCore kw url.data

/-- Embedding of github_to_raw from src/main.py: try the blob pattern first,
then the raw pattern, rebuilding the raw.githubusercontent.com URL from the
captures; otherwise return the URL unchanged. -/
def github_to_raw (url : String) : String :=
  match ghMatch "blob/" url with
  | some (owner, repo, rest) =>
    "https://raw.githubusercontent.com/" ++ String.mk owner ++ "/" ++ String.mk repo
      ++ "/" ++ String.mk rest
  | none =>
    match ghMatch "raw/" url with
    | some (owner, repo, rest) =>
      "https://raw.githubusercontent.com/" ++ String.mk owner ++ "/" ++ String.mk repo
        ++ "/" ++ String.mk rest
    | none => url

/-- Upstream and relayed response headers: ordered name-value pairs. -/
abbrev Headers := List (String × String)

def strLower (s : String) : String := ⟨s.data.map Char.toLower⟩

/-- Model of the httpx Headers.get lookup: case-insensitive on the name;
multiple values for the same name are joined with a comma and a space;
none when the name is absent. -/
def hget (hs : Headers) (k : String) : Option String :=
  match (hs.filter (fun p => strLower p.1 == strLower k)).map Prod.snd with
  | [] => none
  | vs => some (String.intercalate ", " vs)

/-- Header names relayed by pick_response_headers, in source order. -/
def response_header_keys : List String :=
  ["content-type", "content-length", "accept-ranges", "etag", "last-modified", "cache-control"]

/-- Embedding of pick_response_headers from src/main.py: walk the whitelist
in order, look each name up in the upstream headers, and keep the pair when
the value is truthy (a nonempty string). -/
def pick_response_headers (hs : Headers) : Headers :=
  response_header_keys.foldl
    (fun acc k =>
      match hget hs k with
      | some v => if v ≠ "" then acc ++ [(k, v)] else acc
      | none => acc)
    []

/-- Digit run of a Python integer literal: digits with single underscores
allowed between digits only. Accumulator form. -/
def pyDigitsCore : Nat → List Char → Option Nat
  | acc, [] => some acc
  | acc, c :: cs =>
    if c.isDigit then pyDigitsCore (10 * acc + (c.toNat - 48)) cs
    else if c = '_' then
      match cs with
      | d :: _ => if d.isDigit then pyDigitsCore acc cs else none
      | [] => none
    else none

def pyDigits : List Char → Option Nat
  | [] => none
  | c :: cs => if c.isDigit then pyDigitsCore (c.toNat - 48) cs else none

/-- Model of the Python int constructor on a string: strip whitespace, an
optional sign, then a nonempty digit run (underscore separators allowed);
none when the call would raise. -/
def pyInt (s : String) : Option Int :=
  match (pyStrip s).data with
  | '+' :: rest => (pyDigits rest).map Int.ofNat
  | '-' :: rest => (pyDigits rest).map (fun n => -(Int.ofNat n))
  | l => (pyDigits l).map Int.ofNat

/-- Cached value: the tuple (content, headers, status) stored by do_proxy. -/
abbrev Entry := String × Headers × Nat

/-- Model of the cachetools TTLCache content: key, entry, insertion time.
The TTL expiry of lookups is checked against the insertion time; the
maxsize/LRU eviction bound is not exercised by any claim and is not
modelled. -/
abbrev CacheState := List (String × Entry × Int)

/-- Lookup in the TTL cache model: the entry for the key, provided it has
not expired (cachetools keeps an entry alive while now is at most the
insertion time plus the ttl). -/
def cacheLookup (c : CacheState) (key : String) (now ttl : Int) : Option Entry :=
  match c.find? (fun e => e.1 == key) with
  | some (_, entry, tIns) => if now ≤ tIns + ttl then some entry else none
  | none => none

/-- Store in the TTL cache model: replace any previous entry for the key,
recording the insertion time. -/
def cacheStore (c : CacheState) (key : String) (e : Entry) (now : Int) : CacheState :=
  (key, e, now) :: c.filter (fun x => x.1 != key)

/-- Result of one call to the upstream HTTP client: a transport error with
its description (httpx.RequestError), or a response with status, headers
and body. -/
inductive FetchResult where
  | err (detail : String)
  | ok (status : Nat) (headers : Headers) (body : String)
  deriving DecidableEq

/-- Upstream oracle: what client.get returns for a URL and outbound
headers. -/
abbrev Fetcher := String → Headers → FetchResult

/-- Configuration read from the environment at startup: CACHE_TTL (caching
is disabled when it is not positive) and the outbound user-agent string. -/
structure Config where
  ttl : Int
  userAgent : String
  deriving DecidableEq

def DEFAULT_CONFIG : Config :=
  { ttl := 60, userAgent := "Mozilla/5.0 (Windows NT 10.0; Win64; x64) ghproxy/1.0" }

def MAX_STREAM_CHUNK : Nat := 64 * 1024

/-- Chunking performed by stream_response via resp.aiter_bytes: successive
pieces of at most MAX_STREAM_CHUNK bytes. -/
def chunksOf (l : List Char) : List (List Char) :=
  if h : l = [] then []
  else l.take MAX_STREAM_CHUNK :: chunksOf (l.drop MAX_STREAM_CHUNK)
termination_by l.length
decreasing_by
  simp only [List.length_drop]
  exact Nat.sub_lt (List.length_pos.mpr h) (by decide)

/-- Embedding of stream_response from src/main.py as the list of chunks it
yields. -/
def stream_response (body : String) : List String :=
  (chunksOf body.data).map String.mk

/-- Response delivered to the caller: an HTTPException, a fully buffered
Response, or a StreamingResponse of body chunks. -/
inductive Outcome where
  | error (status : Nat) (detail : String)
  | response (body : String) (status : Nat) (headers : Headers)
  | streaming (chunks : List String) (status : Nat) (headers : Headers)
  deriving DecidableEq

/-- Result of one do_proxy call: the outcome, the cache state afterwards,
and whether an outbound fetch was performed. -/
structure ProxyResult where
  outcome : Outcome
  cache : CacheState
  fetched : Bool
  deriving DecidableEq

/-- Outbound headers built by do_proxy: the inbound Range header forwarded
verbatim when present, then the configured user-agent. -/
def build_out_headers (rangeHeader : Option String) (ua : String) : Headers :=
  (match rangeHeader with
   | some r => [("range", r)]
   | none => []) ++ [("user-agent", ua)]

/-- Final target URL of a request: the normalized URL, rewritten by
github_to_raw exactly when the route enables GitHub conversion. This is the
URL do_proxy fetches and derives the cache key from. -/
def final_target (url : String) (convert_github : Bool) : String :=
  if convert_github then github_to_raw (normalize_url_param url)
  else normalize_url_param url

/-- Embedding of do_proxy from src/main.py. The inbound request contributes
only its optional Range header; now is the cache clock; fetch is the
upstream oracle. Mirrors the source line by line: normalize, scheme check,
optional GitHub rewrite, cache lookup, outbound header construction, fetch,
header filtering, content-length parse, and the cache-store versus stream
decision. -/
def do_proxy (cfg : Config) (fetch : Fetcher) (cache : CacheState) (now : Int)
    (rangeHeader : Option String) (url : String) (convert_github : Bool) : ProxyResult :=
  let u := normalize_url_param url
  if !allowed_scheme u then
    { outcome := .error 400 "Only http/https supported", cache := cache, fetched := false }
  else
    let u := if convert_github then github_to_raw u else u
    let cache_key := "proxy:" ++ u
    match (if cfg.ttl > 0 then cacheLookup cache cache_key now cfg.ttl else none) with
    | some (content, headers, status) =>
      { outcome := .response content status headers, cache := cache, fetched := false }
    | none =>
      let out_headers : Headers := build_out_headers rangeHeader cfg.userAgent
      match fetch u out_headers with
      | .err e =>
        { outcome := .error 502 ("Upstream request failed: " ++ e), cache := cache,
          fetched := true }
      | .ok status hdrs body =>
        let picked := pick_response_headers hdrs
        let clen : Option Int :=
          if cfg.ttl > 0 then
            match hget hdrs "content-length" with
            | some v => if v ≠ "" then pyInt v else none
            | none => none
          else none
        match clen with
        | some n =>
          if n ≤ 1048576 then
            { outcome := .response body status picked,
              cache := cacheStore cache cache_key (body, picked, status) now, fetched := true }
          else
            { outcome := .streaming (stream_response body) status picked, cache := cache,
              fetched := true }
        | none =>
          { outcome := .streaming (stream_response body) status picked, cache := cache,
            fetched := true }

/-- Route chosen by the framework for a request path. -/
inductive RouteMatch where
  | index
  | proxyPath (url : String)
  | rawPath (url : String)
  deriving DecidableEq

/-- Modelled from the Starlette routing the source registers: routes are
tried in registration order and the first full match wins. src/main.py
registers, in this order: the exact route slash (index), the catch-all
route with a path converter (proxy_path, whose converter matches any
remainder including slashes), and the raw route (raw_path). The third
branch is therefore only reached when the second does not match. -/
def route_dispatch (path : String) : Option RouteMatch :=
  if path = "/" then some .index
  else if strStarts path "/" then some (.proxyPath (strDrop path 1))
  else if strStarts path "/raw/" then some (.rawPath (strDrop path 5))
  else none

def INDEX_BANNER : String := "a high performance web proxy website based on python3"

/-- One inbound GET handled by the application: dispatch the path to the
matching route handler; index answers the banner, proxy_path calls do_proxy
without GitHub conversion, raw_path calls it with conversion. -/
def app_handle (cfg : Config) (fetch : Fetcher) (cache : CacheState) (now : Int)
    (rangeHeader : Option String) (path : String) : Option ProxyResult :=
  match route_dispatch path with
  | some .index =>
    some { outcome := .response INDEX_BANNER 200 [], cache := cache, fetched := false }
  | some (.proxyPath u) => some (do_proxy cfg fetch cache now rangeHeader u false)
  | some (.rawPath u) => some (do_proxy cfg fetch cache now rangeHeader u true)
  | none => none

/-! Basic lemmas about the embedding. -/

theorem str_data_append (a b : String) : (a ++ b).data = a.data ++ b.data := rfl

theorem str_mk_data (s : String) : String.mk s.data = s := rfl

theorem str_append_assoc (a b c : String) : a ++ b ++ c = a ++ (b ++ c) := by
  show String.mk ((a.data ++ b.data) ++ c.data) = String.mk (a.data ++ (b.data ++ c.data))
  rw [List.append_assoc]

theorem splitAtChar_append (sep : Char) (seg rest : List Char) (h : sep ∉ seg) :
    splitAtChar sep (seg ++ sep :: rest) = some (seg, rest) := by
  induction seg with
  | nil => simp [splitAtChar]
  | cons c cs ih =>
    have hc : c ≠ sep := fun he => h (he ▸ List.mem_cons_self c cs)
    have hcs : sep ∉ cs := fun hm => h (List.mem_cons_of_mem c hm)
    simp [splitAtChar, hc, ih hcs]

theorem dotPlusDollar_clean (l : List Char) (h1 : l ≠ []) (h2 : '\n' ∉ l) :
    dotPlusDollar l = some l := by
  have hb : l.all (fun c => c != '\n') = true := by
    rw [List.all_eq_true]
    intro c hc
    exact bne_iff_ne.mpr (fun he => h2 (he ▸ hc))
  have he : l.isEmpty = false := by
    cases l with
    | nil => exact absurd rfl h1
    | cons c cs => rfl
  simp [dotPlusDollar, hb, he]

theorem ghPrefixStrip_https_plain (t : List Char) :
    ghPrefixStrip ("https://".data ++ ("github.com/".data ++ t)) = some t := rfl

theorem ghPrefixStrip_https_www (t : List Char) :
    ghPrefixStrip ("https://".data ++ ("www.".data ++ ("github.com/".data ++ t))) = some t := rfl

theorem ghPrefixStrip_http_plain (t : List Char) :
    ghPrefixStrip ("http://".data ++ ("github.com/".data ++ t)) = some t := rfl

theorem ghPrefixStrip_http_www (t : List Char) :
    ghPrefixStrip ("http://".data ++ ("www.".data ++ ("github.com/".data ++ t))) = some t := rfl

theorem stripCI_blob_self (t : List Char) :
    stripCI ['b', 'l', 'o', 'b', '/'] ('b' :: 'l' :: 'o' :: 'b' :: '/' :: t) = some t := rfl

theorem stripCI_blob_on_raw (t : List Char) :
    stripCI ['b', 'l', 'o', 'b', '/'] ('r' :: 'a' :: 'w' :: '/' :: t) = none := rfl

theorem stripCI_raw_self (t : List Char) :
    stripCI ['r', 'a', 'w', '/'] ('r' :: 'a' :: 'w' :: '/' :: t) = some t := rfl

theorem ghMatchCore_rawhost (kw : String) (t : List Char) :
    ghMatchCore kw ("https://raw.githubusercontent.com/".data ++ t) = none := rfl

theorem cacheLookup_store_self (c : CacheState) (key : String) (e : Entry)
    (t now ttl : Int) (h : now ≤ t + ttl) :
    cacheLookup (cacheStore c key e t) key now ttl = some e := by
  simp [cacheLookup, cacheStore, List.find?, h]

/-! Claim theorems. -/

/-- Upstream oracle used by concrete probes: a healthy upstream that answers
200 with a small cacheable body, whatever the URL. -/
def probe_fetch : Fetcher := fun _ _ =>
  .ok 200 [("content-type", "text/plain"), ("content-length", "5")] "hello"

/-- C1: the claim states that every GET under the raw route runs the proxy
pipeline with GitHub rewriting enabled. In the code the catch-all route is
registered before the raw route, so the framework (first full match wins)
sends every raw request to proxy_path with conversion disabled; the
normalized URL then starts with raw/ and fails the scheme check, yielding a
400 with no fetch and no rewriting — even with a healthy upstream. This
theorem evaluates the pipeline at such a request. -/
theorem raw_route_never_rewrites :
    route_dispatch "/raw/https://github.com/python/cpython/blob/main/README.rst" =
      some (.proxyPath "raw/https://github.com/python/cpython/blob/main/README.rst") ∧
    app_handle DEFAULT_CONFIG probe_fetch [] 0 none
        "/raw/https://github.com/python/cpython/blob/main/README.rst" =
      some { outcome := .error 400 "Only http/https supported", cache := [], fetched := false } := by
  exact ⟨by decide, by decide⟩

/-- C4: an input whose normalized URL has a scheme other than http or https
is answered with status 400 and the fixed message, the cache is untouched
and no outbound fetch happens. -/
theorem invalid_scheme_rejected (cfg : Config) (fetch : Fetcher) (c0 : CacheState)
    (now : Int) (rng : Option String) (raw : String) (cv : Bool)
    (h1 : urlScheme (normalize_url_param raw) ≠ "http")
    (h2 : urlScheme (normalize_url_param raw) ≠ "https") :
    do_proxy cfg fetch c0 now rng raw cv =
      { outcome := .error 400 "Only http/https supported", cache := c0, fetched := false } := by
  have hb : allowed_scheme (normalize_url_param raw) = false := by
    simp [allowed_scheme, h1, h2]
  simp [do_proxy, hb]

/-- Witness for C4 at the concrete input ftp://example.com/a. -/
theorem invalid_scheme_rejected_witness :
    urlScheme (normalize_url_param "ftp://example.com/a") ≠ "http" ∧
    urlScheme (normalize_url_param "ftp://example.com/a") ≠ "https" ∧
    do_proxy DEFAULT_CONFIG probe_fetch [] 0 none "ftp://example.com/a" false =
      { outcome := .error 400 "Only http/https supported", cache := [], fetched := false } :=
  ⟨by decide, by decide,
    invalid_scheme_rejected DEFAULT_CONFIG probe_fetch [] 0 none "ftp://example.com/a" false
      (by decide) (by decide)⟩

/-- C7: when the upstream fetch fails with a transport error, the caller
gets a 502 whose body is the fixed text followed by the underlying error
description, and the cache is left unchanged. -/
theorem upstream_failure_yields_502 (cfg : Config) (fetch : Fetcher) (c0 : CacheState)
    (now : Int) (rng : Option String) (raw : String) (cv : Bool) (e : String)
    (hs : allowed_scheme (normalize_url_param raw) = true)
    (hmiss : (if cfg.ttl > 0 then
        cacheLookup c0 ("proxy:" ++ final_target raw cv) now cfg.ttl else none) = none)
    (hf : fetch (final_target raw cv) (build_out_headers rng cfg.userAgent) = .err e) :
    do_proxy cfg fetch c0 now rng raw cv =
      { outcome := .error 502 ("Upstream request failed: " ++ e), cache := c0,
        fetched := true } := by
  simp only [final_target] at hmiss hf
  simp [do_proxy, hs, hmiss, hf]

/-- Witness for C7: a concrete connection failure. -/
theorem upstream_failure_yields_502_witness :
    allowed_scheme (normalize_url_param "http://example.com/a") = true ∧
    do_proxy DEFAULT_CONFIG (fun _ _ => .err "connection refused") [] 0 none
        "http://example.com/a" false =
      { outcome := .error 502 ("Upstream request failed: " ++ "connection refused"),
        cache := [], fetched := true } :=
  ⟨by decide,
    upstream_failure_yields_502 DEFAULT_CONFIG (fun _ _ => .err "connection refused") [] 0
      none "http://example.com/a" false "connection refused" (by decide) (by decide) rfl⟩

/-- C2: two successive requests resolving to the same final target URL
within the cache TTL, where the first upstream response declared a
(parseable, truthy) content-length of at most 1 MiB: the first fetch is
stored, and the second request performs no outbound fetch (its fetcher is
arbitrary and unused) and returns the same body, status and whitelisted
headers as the first response. -/
theorem second_request_is_cache_hit (cfg : Config) (fetch1 fetch2 : Fetcher)
    (c0 : CacheState) (t1 t2 : Int) (rng1 rng2 : Option String) (raw1 raw2 : String)
    (cv1 cv2 : Bool) (st : Nat) (hdrs : Headers) (body v : String) (n : Int)
    (httl : cfg.ttl > 0)
    (hs1 : allowed_scheme (normalize_url_param raw1) = true)
    (hs2 : allowed_scheme (normalize_url_param raw2) = true)
    (hsame : final_target raw2 cv2 = final_target raw1 cv1)
    (hmiss : cacheLookup c0 ("proxy:" ++ final_target raw1 cv1) t1 cfg.ttl = none)
    (hf : fetch1 (final_target raw1 cv1) (build_out_headers rng1 cfg.userAgent) =
      .ok st hdrs body)
    (hcl : hget hdrs "content-length" = some v) (hv : v ≠ "")
    (hn : pyInt v = some n) (hle : n ≤ 1048576)
    (htime : t2 ≤ t1 + cfg.ttl) :
    do_proxy cfg fetch1 c0 t1 rng1 raw1 cv1 =
      { outcome := .response body st (pick_response_headers hdrs),
        cache := cacheStore c0 ("proxy:" ++ final_target raw1 cv1)
          (body, pick_response_headers hdrs, st) t1,
        fetched := true } ∧
    do_proxy cfg fetch2
        (cacheStore c0 ("proxy:" ++ final_target raw1 cv1)
          (body, pick_response_headers hdrs, st) t1) t2 rng2 raw2 cv2 =
      { outcome := .response body st (pick_response_headers hdrs),
        cache := cacheStore c0 ("proxy:" ++ final_target raw1 cv1)
          (body, pick_response_headers hdrs, st) t1,
        fetched := false } := by
  have hkey : ("proxy:" ++ final_target raw2 cv2) = ("proxy:" ++ final_target raw1 cv1) := by
    rw [hsame]
  constructor
  · simp only [final_target] at hmiss hf
    simp [do_proxy, final_target, hs1, httl, hmiss, hf, hcl, hv, hn, hle]
  · have hhit := cacheLookup_store_self c0 ("proxy:" ++ final_target raw1 cv1)
      (body, pick_response_headers hdrs, st) t1 t2 cfg.ttl htime
    nth_rewrite 2 [← hkey] at hhit
    simp only [final_target] at hhit
    simp [do_proxy, final_target, hs2, httl, hhit]

/-- Witness for C2: a concrete pair of requests for the same URL; the
second is served from the cache. -/
theorem second_request_is_cache_hit_witness :
    (DEFAULT_CONFIG.ttl > 0) ∧
    allowed_scheme (normalize_url_param "http://example.com/a") = true ∧
    do_proxy DEFAULT_CONFIG probe_fetch [] 0 none "http://example.com/a" false =
      { outcome := .response "hello" 200 [("content-type", "text/plain"),
          ("content-length", "5")],
        cache := [("proxy:http://example.com/a",
          ("hello", [("content-type", "text/plain"), ("content-length", "5")], 200), 0)],
        fetched := true } ∧
    do_proxy DEFAULT_CONFIG (fun _ _ => .err "second fetch would fail")
        [("proxy:http://example.com/a",
          ("hello", [("content-type", "text/plain"), ("content-length", "5")], 200), 0)]
        30 none "http://example.com/a" false =
      { outcome := .response "hello" 200 [("content-type", "text/plain"),
          ("content-length", "5")],
        cache := [("proxy:http://example.com/a",
          ("hello", [("content-type", "text/plain"), ("content-length", "5")], 200), 0)],
        fetched := false } := by
  have h := second_request_is_cache_hit DEFAULT_CONFIG probe_fetch
    (fun _ _ => .err "second fetch would fail") [] 0 30 none none
    "http://example.com/a" "http://example.com/a" false false 200
    [("content-type", "text/plain"), ("content-length", "5")] "hello" "5" 5
    (by decide) (by decide) (by decide) rfl (by decide) rfl (by decide) (by decide)
    (by decide) (by decide) (by decide)
  exact ⟨by decide, by decide, h.1, h.2⟩

/-- C3: after a successful upstream exchange, an entry is stored exactly
when caching is enabled and the response declared a truthy, parseable
content-length of at most 1,048,576; in every other case the cache is left
unchanged and the response is delivered through the chunked streaming
path. -/
theorem cache_store_decision (cfg : Config) (fetch : Fetcher) (c0 : CacheState)
    (now : Int) (rng : Option String) (raw : String) (cv : Bool)
    (st : Nat) (hdrs : Headers) (body : String)
    (hs : allowed_scheme (normalize_url_param raw) = true)
    (hmiss : (if cfg.ttl > 0 then
        cacheLookup c0 ("proxy:" ++ final_target raw cv) now cfg.ttl else none) = none)
    (hf : fetch (final_target raw cv) (build_out_headers rng cfg.userAgent) =
      .ok st hdrs body) :
    ((cfg.ttl > 0 ∧ ∃ v n, hget hdrs "content-length" = some v ∧ v ≠ "" ∧
        pyInt v = some n ∧ n ≤ 1048576) →
      do_proxy cfg fetch c0 now rng raw cv =
        { outcome := .response body st (pick_response_headers hdrs),
          cache := cacheStore c0 ("proxy:" ++ final_target raw cv)
            (body, pick_response_headers hdrs, st) now,
          fetched := true }) ∧
    (¬ (cfg.ttl > 0 ∧ ∃ v n, hget hdrs "content-length" = some v ∧ v ≠ "" ∧
        pyInt v = some n ∧ n ≤ 1048576) →
      do_proxy cfg fetch c0 now rng raw cv =
        { outcome := .streaming (stream_response body) st (pick_response_headers hdrs),
          cache := c0, fetched := true }) := by
  simp only [final_target] at hmiss hf
  constructor
  · rintro ⟨httl, v, n, hcl, hv, hn, hle⟩
    rw [if_pos httl] at hmiss
    simp [do_proxy, final_target, hs, httl, hmiss, hf, hcl, hv, hn, hle]
  · intro hnot
    by_cases httl : cfg.ttl > 0
    · rw [if_pos httl] at hmiss
      cases hcl : hget hdrs "content-length" with
      | none => simp [do_proxy, final_target, hs, httl, hmiss, hf, hcl]
      | some v =>
        by_cases hv : v = ""
        · simp [do_proxy, final_target, hs, httl, hmiss, hf, hcl, hv]
        · cases hn : pyInt v with
          | none => simp [do_proxy, final_target, hs, httl, hmiss, hf, hcl, hv, hn]
          | some n =>
            by_cases hle : n ≤ 1048576
            · exact absurd ⟨httl, v, n, hcl, hv, hn, hle⟩ hnot
            · simp [do_proxy, final_target, hs, httl, hmiss, hf, hcl, hv, hn, hle]
    · simp [do_proxy, final_target, hs, httl, hf]

/-- Witness for C3: an upstream response with a 2 MiB declared
content-length is streamed and the cache stays empty. -/
theorem cache_store_decision_witness :
    allowed_scheme (normalize_url_param "http://example.com/big") = true ∧
    do_proxy DEFAULT_CONFIG
        (fun _ _ => .ok 200 [("content-length", "2097152")] "BIGBODY") [] 0 none
        "http://example.com/big" false =
      { outcome := .streaming (stream_response "BIGBODY") 200
          [("content-length", "2097152")],
        cache := [], fetched := true } := by
  have h := cache_store_decision DEFAULT_CONFIG
    (fun _ _ => .ok 200 [("content-length", "2097152")] "BIGBODY") [] 0 none
    "http://example.com/big" false 200 [("content-length", "2097152")] "BIGBODY"
    (by decide) (by decide) rfl
  refine ⟨by decide, h.2 ?_⟩
  rintro ⟨-, v, n, hcl, -, hn, hle⟩
  rw [show hget [("content-length", "2097152")] "content-length" = some "2097152" from rfl]
    at hcl
  cases hcl
  rw [show pyInt "2097152" = some 2097152 from rfl] at hn
  cases hn
  exact absurd hle (by decide)

/-- C9: the cache key is derived from the final target URL only; the
inbound Range header plays no part in lookup or reply. Whenever an
unexpired entry exists for the target (whatever populated it, including an
earlier ranged 206 fetch: content, headers and status are arbitrary here),
every request for that target receives exactly the cached body, headers
and status with no outbound fetch, independently of its Range header and
of the upstream oracle. -/
theorem cache_hit_ignores_range (cfg : Config) (c0 : CacheState) (now : Int)
    (raw : String) (cv : Bool) (content : String) (headers : Headers) (status : Nat)
    (httl : cfg.ttl > 0)
    (hs : allowed_scheme (normalize_url_param raw) = true)
    (hhit : cacheLookup c0 ("proxy:" ++ final_target raw cv) now cfg.ttl =
      some (content, headers, status)) :
    ∀ (rng : Option String) (fetch : Fetcher),
      do_proxy cfg fetch c0 now rng raw cv =
        { outcome := .response content status headers, cache := c0, fetched := false } := by
  intro rng fetch
  simp only [final_target] at hhit
  simp [do_proxy, final_target, hs, httl, hhit]

/-- Witness for C9: a cache entry populated by a ranged 206 response is
replayed identically to a request without a Range header and to one with a
different Range header. -/
theorem cache_hit_ignores_range_witness :
    (DEFAULT_CONFIG.ttl > 0) ∧
    allowed_scheme (normalize_url_param "http://example.com/f") = true ∧
    cacheLookup [("proxy:http://example.com/f",
        ("PARTIAL", [("content-type", "text/plain"), ("content-length", "7")], 206), 0)]
      ("proxy:" ++ final_target "http://example.com/f" false) 30 DEFAULT_CONFIG.ttl =
      some ("PARTIAL", [("content-type", "text/plain"), ("content-length", "7")], 206) ∧
    do_proxy DEFAULT_CONFIG probe_fetch
        [("proxy:http://example.com/f",
          ("PARTIAL", [("content-type", "text/plain"), ("content-length", "7")], 206), 0)]
        30 none "http://example.com/f" false =
      { outcome := .response "PARTIAL" 206
          [("content-type", "text/plain"), ("content-length", "7")],
        cache := [("proxy:http://example.com/f",
          ("PARTIAL", [("content-type", "text/plain"), ("content-length", "7")], 206), 0)],
        fetched := false } ∧
    do_proxy DEFAULT_CONFIG (fun _ _ => .err "unreachable")
        [("proxy:http://example.com/f",
          ("PARTIAL", [("content-type", "text/plain"), ("content-length", "7")], 206), 0)]
        30 (some "bytes=5-9") "http://example.com/f" false =
      { outcome := .response "PARTIAL" 206
          [("content-type", "text/plain"), ("content-length", "7")],
        cache := [("proxy:http://example.com/f",
          ("PARTIAL", [("content-type", "text/plain"), ("content-length", "7")], 206), 0)],
        fetched := false } := by
  have h := cache_hit_ignores_range DEFAULT_CONFIG
    [("proxy:http://example.com/f",
      ("PARTIAL", [("content-type", "text/plain"), ("content-length", "7")], 206), 0)]
    30 "http://example.com/f" false "PARTIAL"
    [("content-type", "text/plain"), ("content-length", "7")] 206
    (by decide) (by decide) (by decide)
  exact ⟨by decide, by decide, by decide, h none probe_fetch,
    h (some "bytes=5-9") (fun _ _ => .err "unreachable")⟩

/-- C10: the cache-store decision never looks at the upstream status code.
Any successful exchange with caching enabled and a declared content-length
of at most 1 MiB is stored with its status — the status is universally
quantified here, covering 404, 500 and any other — and a later request for
the same target within the TTL replays that original status with no
outbound fetch. -/
theorem cache_store_ignores_status (cfg : Config) (fetch1 fetch2 : Fetcher)
    (c0 : CacheState) (t1 t2 : Int) (rng1 rng2 : Option String) (raw : String)
    (cv : Bool) (st : Nat) (hdrs : Headers) (body v : String) (n : Int)
    (httl : cfg.ttl > 0)
    (hs : allowed_scheme (normalize_url_param raw) = true)
    (hmiss : cacheLookup c0 ("proxy:" ++ final_target raw cv) t1 cfg.ttl = none)
    (hf : fetch1 (final_target raw cv) (build_out_headers rng1 cfg.userAgent) =
      .ok st hdrs body)
    (hcl : hget hdrs "content-length" = some v) (hv : v ≠ "")
    (hn : pyInt v = some n) (hle : n ≤ 1048576)
    (htime : t2 ≤ t1 + cfg.ttl) :
    do_proxy cfg fetch1 c0 t1 rng1 raw cv =
      { outcome := .response body st (pick_response_headers hdrs),
        cache := cacheStore c0 ("proxy:" ++ final_target raw cv)
          (body, pick_response_headers hdrs, st) t1,
        fetched := true } ∧
    do_proxy cfg fetch2
        (cacheStore c0 ("proxy:" ++ final_target raw cv)
          (body, pick_response_headers hdrs, st) t1) t2 rng2 raw cv =
      { outcome := .response body st (pick_response_headers hdrs),
        cache := cacheStore c0 ("proxy:" ++ final_target raw cv)
          (body, pick_response_headers hdrs, st) t1,
        fetched := false } :=
  second_request_is_cache_hit cfg fetch1 fetch2 c0 t1 t2 rng1 rng2 raw raw cv cv st hdrs
    body v n httl hs hs rfl hmiss hf hcl hv hn hle htime

/-- Witness for C10: a 404 with a small declared content-length is stored
and replayed as a 404. -/
theorem cache_store_ignores_status_witness :
    (DEFAULT_CONFIG.ttl > 0) ∧
    allowed_scheme (normalize_url_param "http://example.com/missing") = true ∧
    do_proxy DEFAULT_CONFIG
        (fun _ _ => .ok 404 [("content-type", "text/plain"), ("content-length", "9")]
          "not found") [] 0 none "http://example.com/missing" false =
      { outcome := .response "not found" 404
          [("content-type", "text/plain"), ("content-length", "9")],
        cache := [("proxy:http://example.com/missing",
          ("not found", [("content-type", "text/plain"), ("content-length", "9")], 404), 0)],
        fetched := true } ∧
    do_proxy DEFAULT_CONFIG (fun _ _ => .err "unreachable")
        [("proxy:http://example.com/missing",
          ("not found", [("content-type", "text/plain"), ("content-length", "9")], 404), 0)]
        45 none "http://example.com/missing" false =
      { outcome := .response "not found" 404
          [("content-type", "text/plain"), ("content-length", "9")],
        cache := [("proxy:http://example.com/missing",
          ("not found", [("content-type", "text/plain"), ("content-length", "9")], 404), 0)],
        fetched := false } := by
  have h := cache_store_ignores_status DEFAULT_CONFIG
    (fun _ _ => .ok 404 [("content-type", "text/plain"), ("content-length", "9")]
      "not found") (fun _ _ => .err "unreachable") [] 0 45 none none
    "http://example.com/missing" false 404
    [("content-type", "text/plain"), ("content-length", "9")] "not found" "9" 9
    (by decide) (by decide) (by decide) rfl (by decide) (by decide) (by decide)
    (by decide) (by decide)
  exact ⟨by decide, by decide, h.1, h.2⟩

/-- One step of the pick_response_headers loop, as an optional pair. -/
def pickOne (hs : Headers) (k : String) : Option (String × String) :=
  match hget hs k with
  | some v => if v ≠ "" then some (k, v) else none
  | none => none

theorem pick_foldl_eq (hs : Headers) (keys : List String) (acc : Headers) :
    keys.foldl (fun acc k =>
      match hget hs k with
      | some v => if v ≠ "" then acc ++ [(k, v)] else acc
      | none => acc) acc = acc ++ keys.filterMap (pickOne hs) := by
  induction keys generalizing acc with
  | nil => simp
  | cons k ks ih =>
    rw [List.foldl_cons, ih]
    cases hv : hget hs k with
    | none => simp [List.filterMap_cons, pickOne, hv]
    | some v =>
      by_cases hne : v = ""
      · simp [List.filterMap_cons, pickOne, hv, hne]
      · simp [List.filterMap_cons, pickOne, hv, hne]

theorem pick_eq_filterMap (hs : Headers) :
    pick_response_headers hs = response_header_keys.filterMap (pickOne hs) := by
  have h := pick_foldl_eq hs response_header_keys []
  simpa [pick_response_headers] using h

theorem pickOne_eq_some (hs : Headers) (a k v : String) :
    pickOne hs a = some (k, v) ↔ (a = k ∧ hget hs a = some v ∧ v ≠ "") := by
  unfold pickOne
  cases hv : hget hs a with
  | none => simp
  | some w =>
    by_cases hw : w = ""
    · subst hw
      simp only [ne_eq, not_true_eq_false, if_false, reduceIte]
      constructor
      · intro h
        exact absurd h (by simp)
      · rintro ⟨-, h2, h3⟩
        exact absurd (Option.some.inj h2).symm h3
    · simp only [ne_eq, hw, not_false_eq_true, if_true, ite_true]
      constructor
      · intro h
        obtain ⟨h1, h2⟩ := Prod.mk.injEq .. ▸ Option.some.inj h
        exact ⟨h1, by rw [← h2], by rw [← h2]; exact hw⟩
      · rintro ⟨h1, h2, -⟩
        rw [h1, (Option.some.inj h2)]

/-- C5 counterexample: an upstream header that is present with an empty
value. The case-insensitive lookup finds it (value preserved verbatim:
the empty string), yet the relayed header set omits it, because the source
tests the value for truthiness rather than for presence. -/
theorem pick_drops_present_empty_value :
    hget [("etag", "")] "etag" = some "" ∧
    pick_response_headers [("etag", "")] = [] :=
  ⟨rfl, rfl⟩

/-- C5 as amended: the relayed header set contains exactly the pairs whose
name is in the six-entry whitelist and whose upstream value (under
case-insensitive lookup, preserved verbatim) is present and nonempty; no
other upstream header is ever relayed. -/
theorem relayed_headers_characterization (hs : Headers) (k v : String) :
    (k, v) ∈ pick_response_headers hs ↔
      (k ∈ response_header_keys ∧ hget hs k = some v ∧ v ≠ "") := by
  rw [pick_eq_filterMap, List.mem_filterMap]
  constructor
  · rintro ⟨a, ha, hp⟩
    obtain ⟨rfl, h2, h3⟩ := (pickOne_eq_some hs a k v).mp hp
    exact ⟨ha, h2, h3⟩
  · rintro ⟨h1, h2, h3⟩
    exact ⟨k, h1, (pickOne_eq_some hs k k v).mpr ⟨rfl, h2, h3⟩⟩

theorem data_nil : "".data = [] := rfl

theorem data_slash : "/".data = ['/'] := rfl

theorem data_blobseg : "/blob/".data = ['/', 'b', 'l', 'o', 'b', '/'] := rfl

theorem data_rawseg : "/raw/".data = ['/', 'r', 'a', 'w', '/'] := rfl

theorem isEmpty_false_of_ne (l : List Char) (h : l ≠ []) : l.isEmpty = false := by
  cases l with
  | nil => exact absurd rfl h
  | cons c cs => rfl

/-- Evaluation of the shared regex shape once the prefix has been consumed
and the owner and repo segments are known. -/
theorem ghMatchCore_eval (kw : String) (l owner repo tail : List Char)
    (hpre : ghPrefixStrip l = some (owner ++ '/' :: (repo ++ '/' :: tail)))
    (ho1 : owner ≠ []) (ho2 : '/' ∉ owner) (hr1 : repo ≠ []) (hr2 : '/' ∉ repo) :
    ghMatchCore kw l =
      (match stripCI kw.data tail with
       | none => none
       | some r4 =>
         match dotPlusDollar r4 with
         | none => none
         | some rest => some (owner, repo, rest)) := by
  unfold ghMatchCore
  simp only [hpre, splitAtChar_append '/' owner (repo ++ '/' :: tail) ho2,
    splitAtChar_append '/' repo tail hr2, isEmpty_false_of_ne owner ho1,
    isEmpty_false_of_ne repo hr1, Bool.false_eq_true, if_false, reduceIte]

/-- C6: rewriting of well-formed GitHub blob URLs (all scheme and www
variants, owner and repo being nonempty slash-free path segments, the rest
a nonempty newline-free remainder), the same for the raw form, and the
pass-through of URLs matching neither pattern. -/
theorem github_rewrite_forms :
    (∀ (s w : Bool) (owner repo rest : String),
      owner.data ≠ [] → '/' ∉ owner.data → repo.data ≠ [] → '/' ∉ repo.data →
      rest.data ≠ [] → '\n' ∉ rest.data →
      github_to_raw ((if s then "https://" else "http://") ++ (if w then "www." else "")
          ++ "github.com/" ++ owner ++ "/" ++ repo ++ "/blob/" ++ rest) =
        "https://raw.githubusercontent.com/" ++ owner ++ "/" ++ repo ++ "/" ++ rest) ∧
    (∀ (s w : Bool) (owner repo rest : String),
      owner.data ≠ [] → '/' ∉ owner.data → repo.data ≠ [] → '/' ∉ repo.data →
      rest.data ≠ [] → '\n' ∉ rest.data →
      github_to_raw ((if s then "https://" else "http://") ++ (if w then "www." else "")
          ++ "github.com/" ++ owner ++ "/" ++ repo ++ "/raw/" ++ rest) =
        "https://raw.githubusercontent.com/" ++ owner ++ "/" ++ repo ++ "/" ++ rest) ∧
    (∀ url : String, ghMatch "blob/" url = none → ghMatch "raw/" url = none →
      github_to_raw url = url) := by
  refine ⟨?_, ?_, ?_⟩
  · intro s w owner repo rest h1 h2 h3 h4 h5 h6
    have hpreA : ghPrefixStrip ((if s then "https://" else "http://")
        ++ (if w then "www." else "") ++ "github.com/" ++ owner ++ "/" ++ repo
        ++ "/blob/" ++ rest).data =
        some (owner.data ++ '/' :: (repo.data ++ '/' ::
          ('b' :: 'l' :: 'o' :: 'b' :: '/' :: rest.data))) := by
      cases s <;> cases w <;>
        simp only [ite_true, ite_false, str_data_append, data_nil, data_slash,
          data_blobseg, List.append_assoc, List.cons_append, List.singleton_append,
          List.nil_append] <;>
        first
          | exact ghPrefixStrip_https_www _
          | exact ghPrefixStrip_https_plain _
          | exact ghPrefixStrip_http_www _
          | exact ghPrefixStrip_http_plain _
    have hcore : ghMatch "blob/" ((if s then "https://" else "http://")
        ++ (if w then "www." else "") ++ "github.com/" ++ owner ++ "/" ++ repo
        ++ "/blob/" ++ rest) = some (owner.data, repo.data, rest.data) := by
      show ghMatchCore _ _ = _
      rw [ghMatchCore_eval "blob/" _ owner.data repo.data
        ('b' :: 'l' :: 'o' :: 'b' :: '/' :: rest.data) hpreA h1 h2 h3 h4]
      simp only [stripCI_blob_self, dotPlusDollar_clean rest.data h5 h6]
    simp only [github_to_raw, hcore]
  · intro s w owner repo rest h1 h2 h3 h4 h5 h6
    have hpre2 : ghPrefixStrip ((if s then "https://" else "http://")
        ++ (if w then "www." else "") ++ "github.com/" ++ owner ++ "/" ++ repo
        ++ "/raw/" ++ rest).data =
        some (owner.data ++ '/' :: (repo.data ++ '/' ::
          ('r' :: 'a' :: 'w' :: '/' :: rest.data))) := by
      cases s <;> cases w <;>
        simp only [ite_true, ite_false, str_data_append, data_nil, data_slash,
          data_rawseg, List.append_assoc, List.cons_append, List.singleton_append,
          List.nil_append] <;>
        first
          | exact ghPrefixStrip_https_www _
          | exact ghPrefixStrip_https_plain _
          | exact ghPrefixStrip_http_www _
          | exact ghPrefixStrip_http_plain _
    have hblob : ghMatch "blob/" ((if s then "https://" else "http://")
        ++ (if w then "www." else "") ++ "github.com/" ++ owner ++ "/" ++ repo
        ++ "/raw/" ++ rest) = none := by
      show ghMatchCore _ _ = _
      rw [ghMatchCore_eval "blob/" _ owner.data repo.data
        ('r' :: 'a' :: 'w' :: '/' :: rest.data) hpre2 h1 h2 h3 h4]
      simp only [stripCI_blob_on_raw]
    have hraw : ghMatch "raw/" ((if s then "https://" else "http://")
        ++ (if w then "www." else "") ++ "github.com/" ++ owner ++ "/" ++ repo
        ++ "/raw/" ++ rest) = some (owner.data, repo.data, rest.data) := by
      show ghMatchCore _ _ = _
      rw [ghMatchCore_eval "raw/" _ owner.data repo.data
        ('r' :: 'a' :: 'w' :: '/' :: rest.data) hpre2 h1 h2 h3 h4]
      simp only [stripCI_raw_self, dotPlusDollar_clean rest.data h5 h6]
    simp only [github_to_raw, hblob, hraw]
  · intro url hb hr
    simp [github_to_raw, hb, hr]

/-- Witness for C6 at the concrete blob and raw URLs of the spec, plus a
non-matching URL passing through unchanged. -/
theorem github_rewrite_forms_witness :
    github_to_raw ("https://" ++ "" ++ "github.com/" ++ "OWNER" ++ "/" ++ "REPO"
        ++ "/blob/" ++ "BRANCH/path/to/file") =
      "https://raw.githubusercontent.com/" ++ "OWNER" ++ "/" ++ "REPO" ++ "/"
        ++ "BRANCH/path/to/file" ∧
    github_to_raw ("https://" ++ "" ++ "github.com/" ++ "OWNER" ++ "/" ++ "REPO"
        ++ "/raw/" ++ "BRANCH/file.bin") =
      "https://raw.githubusercontent.com/" ++ "OWNER" ++ "/" ++ "REPO" ++ "/"
        ++ "BRANCH/file.bin" ∧
    github_to_raw "https://example.com/a/b" = "https://example.com/a/b" :=
  ⟨github_rewrite_forms.1 true false "OWNER" "REPO" "BRANCH/path/to/file"
      (by decide) (by decide) (by decide) (by decide) (by decide) (by decide),
    github_rewrite_forms.2.1 true false "OWNER" "REPO" "BRANCH/file.bin"
      (by decide) (by decide) (by decide) (by decide) (by decide) (by decide),
    github_rewrite_forms.2.2 "https://example.com/a/b" rfl rfl⟩

/-- C8: github_to_raw is idempotent. A URL the patterns do not match passes
through unchanged, and any rewritten URL lives on the
raw.githubusercontent.com host, which neither pattern can match again. -/
theorem github_to_raw_idempotent (url : String) :
    github_to_raw (github_to_raw url) = github_to_raw url := by
  have hfix : ∀ x : String,
      github_to_raw ("https://raw.githubusercontent.com/" ++ x) =
        "https://raw.githubusercontent.com/" ++ x := by
    intro x
    have hb : ghMatch "blob/" ("https://raw.githubusercontent.com/" ++ x) = none := by
      show ghMatchCore _ _ = none
      rw [str_data_append]
      exact ghMatchCore_rawhost _ _
    have hr : ghMatch "raw/" ("https://raw.githubusercontent.com/" ++ x) = none := by
      show ghMatchCore _ _ = none
      rw [str_data_append]
      exact ghMatchCore_rawhost _ _
    simp [github_to_raw, hb, hr]
  rcases hb : ghMatch "blob/" url with - | ⟨o, r, rest⟩
  · rcases hr : ghMatch "raw/" url with - | ⟨o, r, rest⟩
    · have h1 : github_to_raw url = url := by simp [github_to_raw, hb, hr]
      rw [h1, h1]
    · have h1 : github_to_raw url = "https://raw.githubusercontent.com/"
          ++ (String.mk o ++ ("/" ++ (String.mk r ++ ("/" ++ String.mk rest)))) := by
        simp [github_to_raw, hb, hr, str_append_assoc]
      rw [h1, hfix]
  · have h1 : github_to_raw url = "https://raw.githubusercontent.com/"
        ++ (String.mk o ++ ("/" ++ (String.mk r ++ ("/" ++ String.mk rest)))) := by
      simp [github_to_raw, hb, str_append_assoc]
    rw [h1, hfix]

end WProxy
